import Mathlib

/-!
Verification of the dynamic-tracing two-stage compiler (logical transformation
and code generation) of the pixie repository, against its specification.

The code-generation functions (`GenStruct`, `GenScalarVariable`,
`GenStructVariable`, `GenMapStashAction`, `GenOutputAction`,
`GenPhysicalProbe`) and the logical transformer (`TransformLogicalProgram`)
are declared in headers and exercised by the repository's unit tests, but the
implementation translation units themselves are not available; each definition
below is therefore modelled from the specification text, and is checked
against the golden outputs recorded in the repository's code_gen unit tests.
Machine strings are Lean `String`s; fallible stages return `Except String`.
-/

set_option maxRecDepth 4000

/-- Modelled from the spec: closed enumeration of scalar types
(signed/unsigned fixed-width integers, floating point, opaque pointer,
string), plus the protobuf default/unset value `UNKNOWN`, which is a fatal
compile error at generation time. -/
inductive ScalarType where
  | UNKNOWN
  | INT32
  | INT64
  | UINT32
  | UINT64
  | DOUBLE
  | VOID_POINTER
  | STRING
deriving DecidableEq, Repr

/-- Modelled from the spec: each known scalar type has exactly one canonical
native-type spelling used at generation time; the spellings are those in the
repository's code_gen unit tests (int32_t, int64_t, uint32_t, double, void*,
char*). `UNKNOWN` has none. -/
def ScalarTypeName : ScalarType → Except String String
  | .UNKNOWN => .error "unknown scalar type"
  | .INT32 => .ok "int32_t"
  | .INT64 => .ok "int64_t"
  | .UINT32 => .ok "uint32_t"
  | .UINT64 => .ok "uint64_t"
  | .DOUBLE => .ok "double"
  | .VOID_POINTER => .ok "void*"
  | .STRING => .ok "char*"

/-- Symbolic CPU/ABI register identifiers visible in the repository: the stack
pointer (SP), and (modelled from the spec, for the return probe's
return-value read) the return-value register RC. -/
inductive Register where
  | SP
  | RC
deriving DecidableEq, Repr

/-- Modelled from the spec: the platform's fixed register-access expression
for the active probe context; the SP spelling is the one in the repository's
code_gen unit tests. -/
def RegisterExpr : Register → String
  | .SP => "PT_REGS_SP(ctx)"
  | .RC => "PT_REGS_RC(ctx)"

/-- The fixed vocabulary of runtime identity helpers, plus the protobuf
default/unset value `UNKNOWN`, which is a fatal compile error. -/
inductive BPFHelper where
  | UNKNOWN
  | GOID
  | TGID
  | TGID_PID
deriving DecidableEq, Repr

/-- Modelled from the spec: each builtin maps to exactly one fixed
runtime-call expression, regardless of the variable's declared scalar type;
the spellings are those in the repository's code_gen unit tests. -/
def BuiltinExpr : BPFHelper → Except String String
  | .UNKNOWN => .error "unknown builtin"
  | .GOID => .ok "goid()"
  | .TGID => .ok "bpf_get_current_pid_tgid() >> 32"
  | .TGID_PID => .ok "bpf_get_current_pid_tgid()"

/-- A variable's source: tagged union with exactly one active variant
(Register / Memory / Builtin), per the spec's data model. -/
inductive VarSource where
  | reg : Register → VarSource
  | memory : String → Int → VarSource
  | builtin : BPFHelper → VarSource
deriving DecidableEq, Repr

/-- ScalarVariable: name, declared type, source. -/
structure ScalarVariable where
  name : String
  val_type : ScalarType
  source : VarSource
deriving DecidableEq, Repr

/-- A struct field's type: either a scalar type or a reference to another
named struct. -/
inductive VariableType where
  | scalar : ScalarType → VariableType
  | struct_type : String → VariableType
deriving DecidableEq, Repr

/-- A named field of a struct. -/
structure StructField where
  name : String
  type : VariableType
deriving DecidableEq, Repr

/-- Struct: named, ordered sequence of fields; field order is significant. -/
structure Struct where
  name : String
  fields : List StructField
deriving DecidableEq, Repr

/-- StructVariable: binds previously declared scalar variables to a struct's
fields by position. -/
structure StructVariable where
  name : String
  struct_name : String
  variable_names : List String
deriving DecidableEq, Repr

/-- MapStashAction: persist a (key, value) pair of declared variables into a
named keyed map. -/
structure MapStashAction where
  map_name : String
  key_variable_name : String
  value_variable_name : String
deriving DecidableEq, Repr

/-- Modelled from the spec: the return-side probe "looks up the same stash
map with the same synthesized key"; this action records that lookup in the
physical IR (the physical IR schema itself is not among the available
sources). -/
structure MapReadAction where
  map_name : String
  key_variable_name : String
deriving DecidableEq, Repr

/-- OutputAction: emit a declared (struct) variable through a named perf
buffer. -/
structure OutputAction where
  perf_buffer_name : String
  variable_name : String
deriving DecidableEq, Repr

/-- PhysicalProbe: one attach point; ordered lists of structs, scalar
variables, struct variables, map-stash actions and output actions.
`map_read_actions` is modelled from the spec (see `MapReadAction`). -/
structure PhysicalProbe where
  name : String
  structs : List Struct
  vars : List ScalarVariable
  st_vars : List StructVariable
  map_stash_actions : List MapStashAction
  map_read_actions : List MapReadAction
  output_actions : List OutputAction
deriving DecidableEq, Repr

deriving instance DecidableEq for Except

/-- A run of `n` spaces, used for field indentation. -/
def IndentOf (n : Nat) : String :=
  String.mk (List.replicate n ' ')

/-- Modelled from the spec: render one struct field, indented, either via the
scalar type's canonical native spelling or as a nested struct-by-name
reference; an unknown scalar type is a fatal error naming the field. -/
def GenField (indent : String) (f : StructField) : Except String String :=
  match f.type with
  | .scalar s =>
    match ScalarTypeName s with
    | .error _ => .error ("unknown scalar type for field " ++ f.name)
    | .ok tname => .ok (indent ++ tname ++ " " ++ f.name ++ ";")
  | .struct_type sname => .ok (indent ++ "struct " ++ sname ++ " " ++ f.name ++ ";")

/-- Render every field of a struct, in declared order. -/
def GenFields (indent : String) : List StructField → Except String (List String)
  | [] => .ok []
  | f :: rest =>
    match GenField indent f with
    | .error e => .error e
    | .ok l =>
      match GenFields indent rest with
      | .error e => .error e
      | .ok r => .ok (l :: r)

/-- Modelled from the spec: emit a struct declaration, one line per field in
declared order, each line indented to the configurable column width, opened
by `struct <name> \x7b` and closed by `\x7d;`. -/
def GenStruct (st : Struct) (indent_size : Nat) : Except String (List String) :=
  match GenFields (IndentOf indent_size) st.fields with
  | .error e => .error e
  | .ok fs => .ok (("struct " ++ st.name ++ " \x7b") :: (fs ++ ["\x7d;"]))

/-- Modelled from the spec: generate the statements declaring one scalar
variable.  Register source: a single declare-and-initialize statement using
the fixed register-access expression.  Memory source: declare the variable
uninitialized, then a bounded, failure-checked read of sizeof(type) bytes
from base + offset.  Builtin source: a single declare-and-initialize
statement using the builtin's fixed runtime-call expression.  An unknown
scalar type or unknown builtin is a fatal error naming the variable. -/
def GenScalarVariable (var : ScalarVariable) : Except String (List String) :=
  match ScalarTypeName var.val_type with
  | .error _ => .error ("unknown scalar type for variable " ++ var.name)
  | .ok tname =>
    match var.source with
    | .reg r => .ok [tname ++ " " ++ var.name ++ " = " ++ RegisterExpr r ++ ";"]
    | .memory base offset =>
      .ok [tname ++ " " ++ var.name ++ ";",
           "bpf_probe_read(&" ++ var.name ++ ", sizeof(" ++ tname ++ "), "
             ++ base ++ " + " ++ toString offset ++ ");"]
    | .builtin b =>
      match BuiltinExpr b with
      | .error _ => .error ("unknown builtin for variable " ++ var.name)
      | .ok expr => .ok [tname ++ " " ++ var.name ++ " = " ++ expr ++ ";"]

/-- Modelled from the spec: emit a struct-assembly block: a zero-initializing
declaration of the named struct type, then one assignment per field, the Nth
member name supplying the Nth field of the referenced struct; a count of
member names differing from the struct's field count is a fatal error naming
the struct variable. -/
def GenStructVariable (st : Struct) (st_var : StructVariable) :
    Except String (List String) :=
  if st.fields.length = st_var.variable_names.length then
    .ok (("struct " ++ st_var.struct_name ++ " " ++ st_var.name ++ " = \x7b\x7d;")
      :: (List.zip st.fields st_var.variable_names).map
           (fun p => st_var.name ++ "." ++ p.1.name ++ " = " ++ p.2 ++ ";"))
  else
    .error ("field count mismatch for struct variable " ++ st_var.name)

/-- Modelled from the spec: a map-update call taking the addresses of the key
and value variables; total, with no validation of the named entities. -/
def GenMapStashAction (action : MapStashAction) : List String :=
  [action.map_name ++ ".update(&" ++ action.key_variable_name ++ ", &"
    ++ action.value_variable_name ++ ");"]

/-- Modelled from the spec: a perf-submit call taking the address and size of
the named variable; total, with no validation of the named entities. -/
def GenOutputAction (action : OutputAction) : List String :=
  [action.perf_buffer_name ++ ".perf_submit(ctx, &" ++ action.variable_name
    ++ ", sizeof(" ++ action.variable_name ++ "));"]

/-- Generate and concatenate the line blocks of a list of entries, in list
order, failing as a whole when any entry fails. -/
def GenAll (f : α → Except String (List String)) :
    List α → Except String (List String)
  | [] => .ok []
  | x :: rest =>
    match f x with
    | .error e => .error e
    | .ok l =>
      match GenAll f rest with
      | .error e => .error e
      | .ok r => .ok (l ++ r)

/-- Look up a struct by name in a probe's own struct list. -/
def FindStruct (structs : List Struct) (sname : String) : Option Struct :=
  structs.find? (fun st => st.name == sname)

/-- Resolve a struct variable's struct reference inside its probe, then
generate its assembly block; a reference to a struct not declared in the
probe is a fatal error naming the struct and the probe. -/
def GenStructVariableIn (probe : PhysicalProbe) (st_var : StructVariable) :
    Except String (List String) :=
  match FindStruct probe.structs st_var.struct_name with
  | none => .error ("undefined struct " ++ st_var.struct_name ++ " in probe " ++ probe.name)
  | some st => GenStructVariable st st_var

/-- The probe function signature line: the probe's name and the fixed
calling-context parameter. -/
def ProbeSignature (probe : PhysicalProbe) : String :=
  "int " ++ probe.name ++ "(struct pt_regs* ctx) \x7b"

/-- Modelled from the spec: lower a physical probe to its ordered sequence of
source lines — struct declarations, the function signature, scalar-variable
statements, struct-assembly blocks, map-update calls, perf-submit calls, the
fixed terminating return statement, and the closing brace, each list in
declaration order.  (The spec's fixed generation order has no step for
stash-map lookups, so `map_read_actions` contributes no lines.) -/
def GenPhysicalProbe (probe : PhysicalProbe) : Except String (List String) :=
  match GenAll (fun st => GenStruct st 2) probe.structs with
  | .error e => .error e
  | .ok sLines =>
    match GenAll GenScalarVariable probe.vars with
    | .error e => .error e
    | .ok vLines =>
      match GenAll (GenStructVariableIn probe) probe.st_vars with
      | .error e => .error e
      | .ok svLines =>
        .ok (sLines ++ [ProbeSignature probe] ++ vLines ++ svLines
              ++ (probe.map_stash_actions.map GenMapStashAction).flatten
              ++ (probe.output_actions.map GenOutputAction).flatten
              ++ ["return 0;", "\x7d"])

/-- A reference from a declared output field to its source: either the Nth
captured argument or the target function's return value. -/
inductive FieldRef where
  | argRef : Nat → FieldRef
  | retvalRef : FieldRef
deriving DecidableEq, Repr

/-- Modelled from the spec: a logical probe — target attach-point name, the
captured-argument variables (each with a declared type and a
Register/Memory/Builtin source), and the declared output record shape: an
ordered, named, typed struct together with, per field, the reference to the
captured argument or return value supplying it. -/
structure LogicalProbe where
  name : String
  args : List ScalarVariable
  output_struct : Struct
  field_refs : List FieldRef
deriving DecidableEq, Repr

/-- Whether a field reference is to the return value. -/
def FieldRefIsRetval : FieldRef → Bool
  | .retvalRef => true
  | .argRef _ => false

/-- Modelled from the spec: a logical probe is return-dependent when its
declared output depends on the target function's return value. -/
def ReturnDependent (p : LogicalProbe) : Bool :=
  p.field_refs.any FieldRefIsRetval

/-- Modelled from the spec: the synthesized per-invocation key variable used
to correlate entry and return data of one outstanding call, read through the
thread identity builtin. -/
def StashKeyVar : ScalarVariable :=
  { name := "stash_key", val_type := .UINT64, source := .builtin .TGID_PID }

/-- Modelled from the spec: the variable the return probe declares to read
the target function's return value, via the register-access convention. -/
def RetvalVar : ScalarVariable :=
  { name := "retval", val_type := .UINT64, source := .reg .RC }

/-- Resolve one output-field reference to the name of the variable supplying
it; a reference to an argument index with no captured argument fails the
whole transformation. -/
def ResolveFieldRef (args : List ScalarVariable) : FieldRef → Except String String
  | .argRef i =>
    match args.get? i with
    | some v => .ok v.name
    | none => .error "output references an undeclared argument"
  | .retvalRef => .ok RetvalVar.name

/-- Resolve every output-field reference, in declared field order. -/
def ResolveFieldRefs (args : List ScalarVariable) :
    List FieldRef → Except String (List String)
  | [] => .ok []
  | r :: rest =>
    match ResolveFieldRef args r with
    | .error e => .error e
    | .ok n =>
      match ResolveFieldRefs args rest with
      | .error e => .error e
      | .ok ns => .ok (n :: ns)

/-- Deterministic role-suffixed name of the entry physical probe. -/
def EntryProbeName (p : LogicalProbe) : String := p.name ++ "_entry"

/-- Deterministic role-suffixed name of the return physical probe. -/
def ReturnProbeName (p : LogicalProbe) : String := p.name ++ "_return"

/-- Deterministic name of the auto-created stash map of a logical probe. -/
def StashMapName (p : LogicalProbe) : String := p.name ++ "_stash"

/-- Deterministic name of the synthesized per-probe perf output channel. -/
def OutputChannelName (p : LogicalProbe) : String := p.name ++ "_output"

/-- Modelled from the spec: the struct used purely for transit of the
entry-time argument captures of a return-dependent probe. -/
def TransitStruct (p : LogicalProbe) : Struct :=
  { name := p.name ++ "_arg_struct_t",
    fields := p.args.map (fun v => { name := v.name, type := .scalar v.val_type }) }

/-- Modelled from the spec: the single ENTRY physical probe of a logical
probe with no return dependency: declare a variable per captured argument,
assemble them into the declared output struct, and attach an OutputAction
writing to the synthesized per-probe perf channel; no stash map is
created. -/
def EntryProbeSimple (p : LogicalProbe) (member_names : List String) : PhysicalProbe :=
  { name := EntryProbeName p,
    structs := [p.output_struct],
    vars := p.args,
    st_vars := [{ name := "output_value", struct_name := p.output_struct.name,
                  variable_names := member_names }],
    map_stash_actions := [],
    map_read_actions := [],
    output_actions := [{ perf_buffer_name := OutputChannelName p,
                         variable_name := "output_value" }] }

/-- Modelled from the spec: the ENTRY physical probe of a return-dependent
logical probe: declare the argument-capture variables, assemble a struct
used purely for transit, and stash it via a MapStashAction into the
auto-created map keyed by the synthesized per-invocation identifier. -/
def EntryProbeStashing (p : LogicalProbe) : PhysicalProbe :=
  { name := EntryProbeName p,
    structs := [TransitStruct p],
    vars := p.args ++ [StashKeyVar],
    st_vars := [{ name := "arg_values", struct_name := (TransitStruct p).name,
                  variable_names := p.args.map ScalarVariable.name }],
    map_stash_actions := [{ map_name := StashMapName p,
                            key_variable_name := StashKeyVar.name,
                            value_variable_name := "arg_values" }],
    map_read_actions := [],
    output_actions := [] }

/-- Modelled from the spec: the RETURN physical probe of a return-dependent
logical probe: declare a variable reading the return value, look up the same
stash map with the same synthesized key, assemble the final output struct
mixing stashed entry fields and return fields per the declared field order,
and attach an OutputAction to the per-probe perf channel. -/
def ReturnProbeOf (p : LogicalProbe) (member_names : List String) : PhysicalProbe :=
  { name := ReturnProbeName p,
    structs := [p.output_struct],
    vars := [StashKeyVar, RetvalVar],
    st_vars := [{ name := "output_value", struct_name := p.output_struct.name,
                  variable_names := member_names }],
    map_stash_actions := [],
    map_read_actions := [{ map_name := StashMapName p,
                           key_variable_name := StashKeyVar.name }],
    output_actions := [{ perf_buffer_name := OutputChannelName p,
                         variable_name := "output_value" }] }

/-- Modelled from the spec (§4.2): expand one logical probe into its physical
probes — the entry/return pair plus the shared stash map when the probe is
return-dependent, a single entry probe and no stash map otherwise. -/
def TransformLogicalProbe (p : LogicalProbe) : Except String (List PhysicalProbe) :=
  match ResolveFieldRefs p.args p.field_refs with
  | .error e => .error e
  | .ok member_names =>
    if ReturnDependent p then
      .ok [EntryProbeStashing p, ReturnProbeOf p member_names]
    else
      .ok [EntryProbeSimple p member_names]

/-- Modelled from the spec: transform every logical probe of a program, in
order; any per-probe failure fails the whole transformation. -/
def TransformLogicalProgram : List LogicalProbe → Except String (List PhysicalProbe)
  | [] => .ok []
  | p :: rest =>
    match TransformLogicalProbe p with
    | .error e => .error e
    | .ok ps =>
      match TransformLogicalProgram rest with
      | .error e => .error e
      | .ok rs => .ok (ps ++ rs)

/-- The whole compiler: logical transformation followed by code generation of
every physical probe (assembly concatenates the generated blocks). -/
def CompileProgram (prog : List LogicalProbe) : Except String (List String) :=
  match TransformLogicalProgram prog with
  | .error e => .error e
  | .ok ps => GenAll GenPhysicalProbe ps

/-- The physical probe built in the repository's end-to-end code_gen unit
test: one single-field struct, a TGID-builtin key, an SP-register variable,
one struct assembly, one map stash and one perf output. -/
def TestEntryProbe : PhysicalProbe :=
  { name := "syscall__probe_connect",
    structs := [{ name := "socket_data_event_t",
                  fields := [⟨"i32", .scalar .INT32⟩] }],
    vars := [⟨"key", .UINT32, .builtin .TGID⟩,
             ⟨"var", .INT32, .reg .SP⟩],
    st_vars := [{ name := "st_var", struct_name := "socket_data_event_t",
                  variable_names := ["var"] }],
    map_stash_actions := [⟨"test", "key", "var"⟩],
    map_read_actions := [],
    output_actions := [⟨"data_events", "st_var"⟩] }

/-- A return-dependent logical probe: its declared output references the
target's return value. -/
def RetLogicalProbe : LogicalProbe :=
  { name := "probe_ret",
    args := [⟨"arg0", .INT32, .reg .SP⟩],
    output_struct := { name := "probe_ret_out_t",
                       fields := [⟨"f0", .scalar .INT32⟩, ⟨"f1", .scalar .UINT64⟩] },
    field_refs := [.argRef 0, .retvalRef] }

/-- A logical probe with no return dependency. -/
def SimpleLogicalProbe : LogicalProbe :=
  { name := "probe_simple",
    args := [⟨"arg0", .INT32, .reg .SP⟩],
    output_struct := { name := "probe_simple_out_t",
                       fields := [⟨"f0", .scalar .INT32⟩] },
    field_refs := [.argRef 0] }

/-- A malformed physical probe whose struct variable references a struct not
declared in the probe. -/
def BadStructRefProbe : PhysicalProbe :=
  { name := "bad_probe",
    structs := [],
    vars := [],
    st_vars := [{ name := "sv", struct_name := "sv_t", variable_names := [] }],
    map_stash_actions := [],
    map_read_actions := [],
    output_actions := [] }

/- ------------------------------------------------------------------ -/
/- Helper lemmas                                                      -/
/- ------------------------------------------------------------------ -/

theorem genAll_ok_decomp {α : Type} (f : α → Except String (List String)) :
    ∀ {l : List α} {out : List String}, GenAll f l = .ok out →
      ∃ ls, List.Forall₂ (fun x y => f x = .ok y) l ls ∧ out = ls.flatten := by
  intro l
  induction l with
  | nil =>
    intro out h
    simp only [GenAll, Except.ok.injEq] at h
    exact ⟨[], List.Forall₂.nil, h.symm⟩
  | cons x r ih =>
    intro out h
    simp only [GenAll] at h
    split at h
    · cases h
    · rename_i l1 hx
      split at h
      · cases h
      · rename_i r1 hr
        cases h
        obtain ⟨ls, hls, hout⟩ := ih hr
        exact ⟨l1 :: ls, List.Forall₂.cons hx hls, by simp [hout]⟩

theorem genAll_ok_of_mem {α : Type} (f : α → Except String (List String)) :
    ∀ {l : List α} {out : List String} {x : α}, GenAll f l = .ok out → x ∈ l →
      ∃ y, f x = .ok y := by
  intro l
  induction l with
  | nil => intro out x _ hmem; cases hmem
  | cons a r ih =>
    intro out x h hmem
    simp only [GenAll] at h
    split at h
    · cases h
    · rename_i l1 hx
      split at h
      · cases h
      · rename_i r1 hr
        rcases List.mem_cons.mp hmem with heq | hmem2
        · exact ⟨l1, heq ▸ hx⟩
        · exact ih hr hmem2

theorem returnDependent_of_mem {p : LogicalProbe}
    (h : FieldRef.retvalRef ∈ p.field_refs) : ReturnDependent p = true := by
  simp only [ReturnDependent, List.any_eq_true]
  exact ⟨FieldRef.retvalRef, h, rfl⟩

/- ------------------------------------------------------------------ -/
/- Claim theorems                                                     -/
/- ------------------------------------------------------------------ -/

/-- C1: for the physical probe of the end-to-end scenario (one
socket_data_event_t struct with a single INT32 field, a TGID-builtin UINT32
key, an SP-register INT32 variable, a struct-variable assembling it, a
MapStashAction on map test and an OutputAction on perf buffer data_events),
GenPhysicalProbe succeeds and returns exactly the golden line sequence, in
order. -/
theorem claimC1_gen_physical_probe_golden :
    GenPhysicalProbe TestEntryProbe =
      .ok ["struct socket_data_event_t \x7b",
           "  int32_t i32;",
           "\x7d;",
           "int syscall__probe_connect(struct pt_regs* ctx) \x7b",
           "uint32_t key = bpf_get_current_pid_tgid() >> 32;",
           "int32_t var = PT_REGS_SP(ctx);",
           "struct socket_data_event_t st_var = \x7b\x7d;",
           "st_var.i32 = var;",
           "test.update(&key, &var);",
           "data_events.perf_submit(ctx, &st_var, sizeof(st_var));",
           "return 0;",
           "\x7d"] := by decide

/-- C6: for the struct socket_data_event_t with fields i32:INT32, i64:INT64,
double_val:DOUBLE, msg:VOID_POINTER, str:STRING, attr:attr_t, GenStruct with
indent size 4 produces exactly the opening line, one indented line per field
in declared order with the canonical native spellings and the nested struct
rendering, and the closing line. -/
theorem claimC6_gen_struct_golden :
    GenStruct
      { name := "socket_data_event_t",
        fields := [⟨"i32", .scalar .INT32⟩, ⟨"i64", .scalar .INT64⟩,
                   ⟨"double_val", .scalar .DOUBLE⟩, ⟨"msg", .scalar .VOID_POINTER⟩,
                   ⟨"str", .scalar .STRING⟩, ⟨"attr", .struct_type "attr_t"⟩] } 4
      = .ok ["struct socket_data_event_t \x7b", "    int32_t i32;",
             "    int64_t i64;", "    double double_val;", "    void* msg;",
             "    char* str;", "    struct attr_t attr;", "\x7d;"] := by decide

/-- C7: for a struct with fields [i32, i64] and a struct-variable binding
source variables [foo, bar] by position, GenStructVariable produces exactly
three lines: the zero-initializing declaration, then st_var.i32 = foo;, then
st_var.i64 = bar; — one assignment per field, in struct-field order, the Nth
member name supplying the Nth field. -/
theorem claimC7_gen_struct_variable_golden :
    GenStructVariable
      { name := "socket_data_event_t",
        fields := [⟨"i32", .scalar .INT32⟩, ⟨"i64", .scalar .INT64⟩] }
      { name := "st_var", struct_name := "socket_data_event_t",
        variable_names := ["foo", "bar"] }
      = .ok ["struct socket_data_event_t st_var = \x7b\x7d;",
             "st_var.i32 = foo;", "st_var.i64 = bar;"] := by decide

/-- C10: GenMapStashAction and GenOutputAction are total functions (they
return a plain line list, not a success-or-failure result) and, for every
input, return exactly one line of the fixed map-update / perf-submit form,
with no validation of the named map, buffer, or variables. -/
theorem claimC10_actions_total :
    (∀ a : MapStashAction,
      GenMapStashAction a =
        [a.map_name ++ ".update(&" ++ a.key_variable_name ++ ", &"
          ++ a.value_variable_name ++ ");"])
    ∧ (∀ a : OutputAction,
      GenOutputAction a =
        [a.perf_buffer_name ++ ".perf_submit(ctx, &" ++ a.variable_name
          ++ ", sizeof(" ++ a.variable_name ++ "));"]) :=
  ⟨fun _ => rfl, fun _ => rfl⟩

/-- C4: for every scalar variable with a Memory source whose declared type
has a native spelling, GenScalarVariable emits exactly two statements: an
uninitialized declaration, then the bounded, failure-checked
bpf_probe_read of sizeof(type) bytes from base + offset; the defensive
check is always emitted. -/
theorem claimC4_memory_two_statements (nm base : String) (off : Int)
    (t : ScalarType) (tn : String) (h : ScalarTypeName t = .ok tn) :
    GenScalarVariable ⟨nm, t, .memory base off⟩ =
      .ok [tn ++ " " ++ nm ++ ";",
           "bpf_probe_read(&" ++ nm ++ ", sizeof(" ++ tn ++ "), " ++ base
             ++ " + " ++ toString off ++ ");"] := by
  simp [GenScalarVariable, h]

/-- C4 witness: the repository's MemoryVariable unit-test input. -/
theorem claimC4_witness :
    GenScalarVariable ⟨"var", .INT32, .memory "sp" 123⟩ =
      .ok ["int32_t var;", "bpf_probe_read(&var, sizeof(int32_t), sp + 123);"] :=
  (claimC4_memory_two_statements "var" "sp" 123 .INT32 "int32_t" rfl).trans
    (by decide)

/-- C8: for every scalar variable with a Builtin source, GenScalarVariable
emits a single declare-and-initialize statement whose right-hand side is the
builtin's one fixed runtime-call expression, independent of the variable's
name and declared type, while the declared type still governs the left-hand
storage type; and the three builtins render as their fixed expressions. -/
theorem claimC8_builtin_fixed_expression (nm : String) (t : ScalarType)
    (b : BPFHelper) (tn expr : String)
    (h1 : ScalarTypeName t = .ok tn) (h2 : BuiltinExpr b = .ok expr) :
    GenScalarVariable ⟨nm, t, .builtin b⟩ =
      .ok [tn ++ " " ++ nm ++ " = " ++ expr ++ ";"]
    ∧ BuiltinExpr .TGID = .ok "bpf_get_current_pid_tgid() >> 32"
    ∧ BuiltinExpr .TGID_PID = .ok "bpf_get_current_pid_tgid()"
    ∧ BuiltinExpr .GOID = .ok "goid()" := by
  refine ⟨?_, rfl, rfl, rfl⟩
  simp [GenScalarVariable, h1, h2]

/-- C8 witness: the repository's Builtin unit-test input (TGID with a
VOID_POINTER declared type). -/
theorem claimC8_witness :
    GenScalarVariable ⟨"var", .VOID_POINTER, .builtin .TGID⟩ =
      .ok ["void* var = bpf_get_current_pid_tgid() >> 32;"]
    ∧ BuiltinExpr .TGID = .ok "bpf_get_current_pid_tgid() >> 32"
    ∧ BuiltinExpr .TGID_PID = .ok "bpf_get_current_pid_tgid()"
    ∧ BuiltinExpr .GOID = .ok "goid()" := by
  obtain ⟨h, h2, h3, h4⟩ :=
    claimC8_builtin_fixed_expression "var" .VOID_POINTER .TGID "void*"
      "bpf_get_current_pid_tgid() >> 32" rfl rfl
  exact ⟨h.trans (by decide), h2, h3, h4⟩

/-- C3: the compiler (transformation followed by code generation) is a pure,
deterministic function of the logical program alone: equal inputs always
produce equal output (the model has no clock, environment, or unordered-map
input for it to depend on). -/
theorem claimC3_deterministic (l1 l2 : List LogicalProbe) (h : l1 = l2) :
    CompileProgram l1 = CompileProgram l2 := by rw [h]

/-- C3 witness: determinism at a concrete one-probe logical program. -/
theorem claimC3_witness :
    CompileProgram
        [{ name := "probe0",
           args := [⟨"arg0", .INT32, .reg .SP⟩],
           output_struct := { name := "out_t", fields := [⟨"f0", .scalar .INT32⟩] },
           field_refs := [.argRef 0] }]
      = CompileProgram
        [{ name := "probe0",
           args := [⟨"arg0", .INT32, .reg .SP⟩],
           output_struct := { name := "out_t", fields := [⟨"f0", .scalar .INT32⟩] },
           field_refs := [.argRef 0] }] :=
  claimC3_deterministic _ _ rfl

/-- C5: for every physical probe that generates successfully, the emitted
statements appear in exactly the declaration order of each of the probe's
lists (Structs, ScalarVariables, StructVariables, MapStashActions,
OutputActions): the output is the concatenation, in the fixed §4.3 order, of
one generated block per list entry, pairing the Nth entry with the Nth
block — never reordered and never deduplicated. -/
theorem claimC5_order_preservation (p : PhysicalProbe) (lines : List String)
    (h : GenPhysicalProbe p = .ok lines) :
    ∃ sLines vLines svLines,
      List.Forall₂ (fun st l => GenStruct st 2 = .ok l) p.structs sLines ∧
      List.Forall₂ (fun v l => GenScalarVariable v = .ok l) p.vars vLines ∧
      List.Forall₂ (fun sv l => GenStructVariableIn p sv = .ok l) p.st_vars svLines ∧
      lines = sLines.flatten ++ [ProbeSignature p] ++ vLines.flatten ++ svLines.flatten
        ++ (p.map_stash_actions.map GenMapStashAction).flatten
        ++ (p.output_actions.map GenOutputAction).flatten
        ++ ["return 0;", "\x7d"] := by
  simp only [GenPhysicalProbe] at h
  split at h
  · cases h
  · rename_i sl hs
    split at h
    · cases h
    · rename_i vl hv
      split at h
      · cases h
      · rename_i svl hsv
        cases h
        obtain ⟨ls, hls, hsflat⟩ := genAll_ok_decomp _ hs
        obtain ⟨lv, hlv, hvflat⟩ := genAll_ok_decomp _ hv
        obtain ⟨lsv, hlsv, hsvflat⟩ := genAll_ok_decomp _ hsv
        subst hsflat hvflat hsvflat
        exact ⟨ls, lv, lsv, hls, hlv, hlsv, rfl⟩

/-- C5 witness: the decomposition at the end-to-end test probe and its
golden output. -/
theorem claimC5_witness :
    ∃ sLines vLines svLines,
      List.Forall₂ (fun st l => GenStruct st 2 = .ok l)
        TestEntryProbe.structs sLines ∧
      List.Forall₂ (fun v l => GenScalarVariable v = .ok l)
        TestEntryProbe.vars vLines ∧
      List.Forall₂ (fun sv l => GenStructVariableIn TestEntryProbe sv = .ok l)
        TestEntryProbe.st_vars svLines ∧
      ["struct socket_data_event_t \x7b",
       "  int32_t i32;",
       "\x7d;",
       "int syscall__probe_connect(struct pt_regs* ctx) \x7b",
       "uint32_t key = bpf_get_current_pid_tgid() >> 32;",
       "int32_t var = PT_REGS_SP(ctx);",
       "struct socket_data_event_t st_var = \x7b\x7d;",
       "st_var.i32 = var;",
       "test.update(&key, &var);",
       "data_events.perf_submit(ctx, &st_var, sizeof(st_var));",
       "return 0;",
       "\x7d"]
        = sLines.flatten ++ [ProbeSignature TestEntryProbe] ++ vLines.flatten
          ++ svLines.flatten
          ++ (TestEntryProbe.map_stash_actions.map GenMapStashAction).flatten
          ++ (TestEntryProbe.output_actions.map GenOutputAction).flatten
          ++ ["return 0;", "\x7d"] :=
  claimC5_order_preservation TestEntryProbe _ (by decide)

/-- C2: for every logical probe whose declared output references the
target's return value, Transform produces exactly two physical probes — an
entry-suffixed one and a return-suffixed one — sharing exactly one stash map
by name (the entry probe stashes into it and the return probe reads from it,
and neither touches any other map); for every logical probe with no return
dependency, Transform produces a single entry physical probe and creates no
stash map. -/
theorem claimC2_entry_return_expansion (p : LogicalProbe)
    (ps : List PhysicalProbe) (h : TransformLogicalProbe p = .ok ps) :
    (FieldRef.retvalRef ∈ p.field_refs →
      ∃ e r, ps = [e, r]
        ∧ e.name = p.name ++ "_entry"
        ∧ r.name = p.name ++ "_return"
        ∧ e.map_stash_actions.map MapStashAction.map_name = [p.name ++ "_stash"]
        ∧ r.map_read_actions.map MapReadAction.map_name = [p.name ++ "_stash"]
        ∧ e.map_read_actions = [] ∧ r.map_stash_actions = [])
    ∧ (ReturnDependent p = false →
      ∃ e, ps = [e]
        ∧ e.name = p.name ++ "_entry"
        ∧ e.map_stash_actions = [] ∧ e.map_read_actions = []) := by
  simp only [TransformLogicalProbe] at h
  split at h
  · cases h
  · rename_i names hnames
    constructor
    · intro hmem
      rw [returnDependent_of_mem hmem, if_pos rfl] at h
      cases h
      exact ⟨EntryProbeStashing p, ReturnProbeOf p names,
             rfl, rfl, rfl, rfl, rfl, rfl, rfl⟩
    · intro hfalse
      rw [hfalse] at h
      simp only [Bool.false_eq_true, if_false] at h
      cases h
      exact ⟨EntryProbeSimple p names, rfl, rfl, rfl, rfl⟩

/-- C2 witness: the expansion at a concrete return-dependent probe and a
concrete probe with no return dependency. -/
theorem claimC2_witness :
    (∃ e r, ([EntryProbeStashing RetLogicalProbe,
              ReturnProbeOf RetLogicalProbe ["arg0", "retval"]]
                : List PhysicalProbe) = [e, r]
      ∧ e.name = RetLogicalProbe.name ++ "_entry"
      ∧ r.name = RetLogicalProbe.name ++ "_return"
      ∧ e.map_stash_actions.map MapStashAction.map_name
          = [RetLogicalProbe.name ++ "_stash"]
      ∧ r.map_read_actions.map MapReadAction.map_name
          = [RetLogicalProbe.name ++ "_stash"]
      ∧ e.map_read_actions = [] ∧ r.map_stash_actions = [])
    ∧ (∃ e, ([EntryProbeSimple SimpleLogicalProbe ["arg0"]]
                : List PhysicalProbe) = [e]
      ∧ e.name = SimpleLogicalProbe.name ++ "_entry"
      ∧ e.map_stash_actions = [] ∧ e.map_read_actions = []) :=
  ⟨(claimC2_entry_return_expansion RetLogicalProbe _ (by decide)).1 (by decide),
   (claimC2_entry_return_expansion SimpleLogicalProbe _ (by decide)).2 (by decide)⟩

/-- C9: every schema error — an unknown/unset scalar type, an unknown
builtin, an undefined struct reference, or a member-name count differing
from the referenced struct's field count — fails the enclosing generation
with a typed error naming the offending entity; since the result is a
success-or-failure value, no partial output lines are produced and no stage
substitutes default behavior. -/
theorem claimC9_schema_errors :
    (∀ nm src, GenScalarVariable ⟨nm, .UNKNOWN, src⟩ =
        .error ("unknown scalar type for variable " ++ nm))
    ∧ (∀ nm t tn, ScalarTypeName t = .ok tn →
        GenScalarVariable ⟨nm, t, .builtin .UNKNOWN⟩ =
          .error ("unknown builtin for variable " ++ nm))
    ∧ (∀ (p : PhysicalProbe) (sv : StructVariable), sv ∈ p.st_vars →
        FindStruct p.structs sv.struct_name = none →
        ∀ lines, GenPhysicalProbe p ≠ .ok lines)
    ∧ (∀ (st : Struct) (sv : StructVariable),
        st.fields.length ≠ sv.variable_names.length →
        GenStructVariable st sv =
          .error ("field count mismatch for struct variable " ++ sv.name)) := by
  refine ⟨?_, ?_, ?_, ?_⟩
  · intro nm src
    simp [GenScalarVariable, ScalarTypeName]
  · intro nm t tn h
    simp [GenScalarVariable, h, BuiltinExpr]
  · intro p sv hmem hnone lines hok
    simp only [GenPhysicalProbe] at hok
    split at hok
    · cases hok
    · split at hok
      · cases hok
      · split at hok
        · cases hok
        · rename_i svl hsv
          obtain ⟨y, hy⟩ := genAll_ok_of_mem _ hsv hmem
          simp [GenStructVariableIn, hnone] at hy
  · intro st sv h
    simp [GenStructVariable, h]

/-- C9 witness: each schema error at a concrete input. -/
theorem claimC9_witness :
    GenScalarVariable ⟨"v", .UNKNOWN, .reg .SP⟩ =
      .error "unknown scalar type for variable v"
    ∧ GenScalarVariable ⟨"v", .INT32, .builtin .UNKNOWN⟩ =
      .error "unknown builtin for variable v"
    ∧ GenPhysicalProbe BadStructRefProbe ≠ .ok ["int bad_probe(struct pt_regs* ctx) \x7b"]
    ∧ GenStructVariable
        { name := "s_t", fields := [⟨"f", .scalar .INT32⟩] }
        { name := "sv", struct_name := "s_t", variable_names := [] } =
      .error "field count mismatch for struct variable sv" := by
  refine ⟨?_, ?_, ?_, ?_⟩
  · exact (claimC9_schema_errors.1 "v" (.reg .SP)).trans (by decide)
  · exact (claimC9_schema_errors.2.1 "v" .INT32 "int32_t" rfl).trans (by decide)
  · exact claimC9_schema_errors.2.2.1 BadStructRefProbe
      { name := "sv", struct_name := "sv_t", variable_names := [] }
      (by decide) (by decide) _
  · exact (claimC9_schema_errors.2.2.2
      { name := "s_t", fields := [⟨"f", .scalar .INT32⟩] }
      { name := "sv", struct_name := "s_t", variable_names := [] }
      (by decide)).trans (by decide)
